import Mathlib

/-!
Shallow embedding of the Survival-3D creature AI and resource-node subsystems
(`creatures.js`, `resources.js`).

External collaborators are modelled explicitly:
* THREE.js vector math and `Math` trigonometry are abstract rational-valued
  functions collected in a `Geom` record (every JS double is a rational, so
  `ℚ`-valued abstract functions cover them);
* `Math.random()` draws are passed in as arguments;
* `Date.now()` is an explicit `now` argument;
* an armed `setTimeout` is represented by the absolute time at which it fires,
  checked by an explicit tick operation.

Rendering-only code (meshes, particles, indicator rings, health bars,
console logging) is omitted: it never feeds back into the game state
modelled here.
-/

namespace Survival3D

/-- Vector of three rational coordinates (JS numbers modelled as exact rationals). -/
structure Vec3 where
  x : ℚ
  y : ℚ
  z : ℚ
  deriving DecidableEq, Repr

/-- Componentwise subtraction, `new THREE.Vector3().subVectors(a, b)`. -/
def Vec3.sub (a b : Vec3) : Vec3 := ⟨a.x - b.x, a.y - b.y, a.z - b.z⟩

/-- External THREE.js / `Math` floating-point primitives, modelled as abstract
rational-valued functions. `dist` is `THREE.Vector3.distanceTo`, `normalize`
is `THREE.Vector3.normalize`, `pi` is `Math.PI`. -/
structure Geom where
  pi : ℚ
  cos : ℚ → ℚ
  sin : ℚ → ℚ
  atan2 : ℚ → ℚ → ℚ
  dist : Vec3 → Vec3 → ℚ
  normalize : Vec3 → Vec3

/-! ## Resource system (`resources.js`) -/

/-- Drop event `{type, amount}` returned by gathering or by loot rolls. -/
structure Drop where
  itemType : String
  amount : ℤ
  deriving DecidableEq, Repr

/-- A resource node. `respawnTimer` models the armed `setTimeout` handle by
the absolute time (ms) at which it fires; `none` when no timer is armed. -/
structure ResourceNode where
  type : String
  position : Vec3
  health : ℤ
  maxHealth : ℤ
  canGather : Bool
  respawnTime : ℤ
  respawnTimer : Option ℤ
  deriving DecidableEq, Repr

/-- Source `getMaxHealth(type)` from `resources.js`. -/
def getMaxHealth (type : String) : ℤ :=
  if type = "tree" then 5
  else if type = "rock" then 8
  else if type = "plant" then 2
  else 3

/-- Source `createResourceNode(type, x, y, z)`, the pure node record (mesh creation
and the interaction indicator are rendering-only). -/
def createResourceNode (type : String) (pos : Vec3) : ResourceNode :=
  { type := type, position := pos, health := getMaxHealth type,
    maxHealth := getMaxHealth type, canGather := true,
    respawnTime := 60000, respawnTimer := none }

/-- Source `getResourceDrop(type)` from `resources.js`. -/
def getResourceDrop (type : String) : Option Drop :=
  if type = "tree" then some { itemType := "wood", amount := 1 }
  else if type = "rock" then some { itemType := "stone", amount := 1 }
  else if type = "plant" then some { itemType := "fiber", amount := 2 }
  else none

/-- Source `depleteNode(node)`: clears `canGather` and arms the respawn timer to fire
`respawnTime` ms after `now` (the source's `setTimeout(..., node.respawnTime)`). -/
def depleteNode (now : ℤ) (node : ResourceNode) : ResourceNode :=
  { node with canGather := false, respawnTimer := some (now + node.respawnTime) }

/-- Source `respawnNode(node)`: resets health to max and `canGather` to true.  The
fired one-shot timer is cleared in the model. -/
def respawnNode (node : ResourceNode) : ResourceNode :=
  { node with health := node.maxHealth, canGather := true, respawnTimer := none }

/-- Source `gatherResource(node, amountMultiplier)`: returns the updated node and the
drop (`null`, i.e. `none`, when the node cannot be gathered or its type is
unknown).  Shake animation and particles are rendering-only. -/
def gatherResource (now : ℤ) (node : ResourceNode) (amountMultiplier : ℚ) :
    ResourceNode × Option Drop :=
  if !node.canGather then (node, none)
  else
    let damageDealt : ℤ := if 2 ≤ amountMultiplier then 2 else 1
    let node1 := { node with health := node.health - damageDealt }
    let node2 := if node1.health ≤ 0 then depleteNode now node1 else node1
    let baseDrop := (getResourceDrop node.type).map
      (fun d => { d with amount := ⌊(d.amount : ℚ) * amountMultiplier⌋ })
    (node2, baseDrop)

/-- Firing check for the armed respawn timer: the one-shot `setTimeout`
fires once its deadline has been reached. -/
def tickNode (now : ℤ) (node : ResourceNode) : ResourceNode :=
  match node.respawnTimer with
  | some deadline => if deadline ≤ now then respawnNode node else node
  | none => node

/-- One lifecycle event on a single node: a `gatherResource` call (which may
call `depleteNode` internally), or the passage of time to `now` letting an
armed respawn timer fire (`respawnNode`). -/
inductive NodeOp where
  | gather (now : ℤ) (mult : ℚ)
  | tick (now : ℤ)
  deriving DecidableEq, Repr

def applyNodeOp (node : ResourceNode) : NodeOp → ResourceNode
  | .gather now mult => (gatherResource now node mult).1
  | .tick now => tickNode now node

def runNodeOps (node : ResourceNode) (ops : List NodeOp) : ResourceNode :=
  ops.foldl applyNodeOp node

/-- System-level operations on the `resourceNodes` collection: nodes are only
ever appended (`createResourceNode` pushes) or updated in place, never removed. -/
inductive SysOp where
  | create (type : String) (pos : Vec3)
  | gatherAt (i : ℕ) (now : ℤ) (mult : ℚ)
  | tickAll (now : ℤ)
  deriving Repr

def applySysOp (nodes : List ResourceNode) : SysOp → List ResourceNode
  | .create type pos => nodes ++ [createResourceNode type pos]
  | .gatherAt i now mult =>
      nodes.mapIdx (fun j n => if j = i then (gatherResource now n mult).1 else n)
  | .tickAll now => nodes.map (tickNode now)

def runSysOps (nodes : List ResourceNode) (ops : List SysOp) : List ResourceNode :=
  ops.foldl applySysOp nodes

/-- Loop body of `getClosestNode`: `best` and `bestDist` are the `closest` and
`closestDist` mutables of the source loop. -/
def closestNodeAux (dist : Vec3 → Vec3 → ℚ) (p : Vec3) :
    List ResourceNode → Option ResourceNode → ℚ → Option ResourceNode
  | [], best, _ => best
  | n :: rest, best, bestDist =>
    if !n.canGather then closestNodeAux dist p rest best bestDist
    else if dist p n.position < bestDist then
      closestNodeAux dist p rest (some n) (dist p n.position)
    else closestNodeAux dist p rest best bestDist

/-- Source `getClosestNode(position, maxDistance)` over an explicit node list, with
the external Euclidean `distanceTo` passed as `dist`. -/
def getClosestNode (dist : Vec3 → Vec3 → ℚ) (nodes : List ResourceNode)
    (position : Vec3) (maxDistance : ℚ) : Option ResourceNode :=
  closestNodeAux dist position nodes none maxDistance

/-! ## Creature system (`creatures.js`) -/

/-- One drop-table entry `{type, amount, chance}`. -/
structure DropEntry where
  type : String
  amount : ℤ
  chance : ℚ
  deriving DecidableEq, Repr

/-- Species stats.  Presentation-only fields (name, emoji, color, size) are
omitted.  `fleeSpeed` and `attackCooldown` are `Option` because some source
species omit them (they are `undefined` in JS). -/
structure Species where
  id : String
  health : ℚ
  maxHealth : ℚ
  speed : ℚ
  damage : ℚ
  attackRange : ℚ
  detectionRange : ℚ
  behavior : String
  aggroOnHit : Bool
  wanderSpeed : ℚ
  fleeSpeed : Option ℚ
  attackCooldown : Option ℚ
  dropItems : List DropEntry
  spawnWeight : ℚ
  deriving DecidableEq, Repr

def rabbitSpec : Species :=
  { id := "rabbit", health := 10, maxHealth := 10, speed := 8, damage := 0,
    attackRange := 0, detectionRange := 15, behavior := "passive",
    aggroOnHit := false, wanderSpeed := 3, fleeSpeed := some 10,
    attackCooldown := none, dropItems := [⟨"meat", 1, 1⟩], spawnWeight := 30 }

def deerSpec : Species :=
  { id := "deer", health := 25, maxHealth := 25, speed := 10, damage := 0,
    attackRange := 0, detectionRange := 20, behavior := "passive",
    aggroOnHit := false, wanderSpeed := 4, fleeSpeed := some 12,
    attackCooldown := none,
    dropItems := [⟨"meat", 3, 1⟩, ⟨"hide", 1, 8/10⟩], spawnWeight := 20 }

def wolfSpec : Species :=
  { id := "wolf", health := 40, maxHealth := 40, speed := 12, damage := 10,
    attackRange := 2, detectionRange := 25, behavior := "aggressive",
    aggroOnHit := true, wanderSpeed := 5, fleeSpeed := none,
    attackCooldown := some 1500,
    dropItems := [⟨"meat", 2, 1⟩, ⟨"fang", 1, 1/2⟩], spawnWeight := 15 }

def boarSpec : Species :=
  { id := "boar", health := 50, maxHealth := 50, speed := 9, damage := 8,
    attackRange := 9/5, detectionRange := 15, behavior := "neutral",
    aggroOnHit := true, wanderSpeed := 3, fleeSpeed := none,
    attackCooldown := some 2000,
    dropItems := [⟨"meat", 4, 1⟩, ⟨"hide", 2, 7/10⟩], spawnWeight := 18 }

def bearSpec : Species :=
  { id := "bear", health := 100, maxHealth := 100, speed := 8, damage := 20,
    attackRange := 5/2, detectionRange := 30, behavior := "aggressive",
    aggroOnHit := true, wanderSpeed := 4, fleeSpeed := none,
    attackCooldown := some 2500,
    dropItems := [⟨"meat", 8, 1⟩, ⟨"hide", 3, 1⟩, ⟨"fang", 2, 8/10⟩],
    spawnWeight := 8 }

/-- The species registry built by the source's species initialization. -/
def allSpecies : List Species := [rabbitSpec, deerSpec, wolfSpec, boarSpec, bearSpec]

/-- A creature agent (the `mesh`/`healthBar` handles are rendering-only). -/
structure Creature where
  id : ℚ
  species : String
  speciesData : Species
  position : Vec3
  velocity : Vec3
  rotation : ℚ
  health : ℚ
  maxHealth : ℚ
  isDead : Bool
  state : String
  target : Option Vec3
  lastAttackTime : ℚ
  stateTimer : ℚ
  wanderTarget : Option Vec3
  deriving DecidableEq, Repr

/-- Source `spawnCreature(species, position)`; `idv` and `rot` stand for the
`Date.now() + Math.random()` id and the random initial facing angle. -/
def spawnCreature (sp : Species) (position : Vec3) (idv rot : ℚ) : Creature :=
  { id := idv, species := sp.id, speciesData := sp, position := position,
    velocity := ⟨0, 0, 0⟩, rotation := rot, health := sp.health,
    maxHealth := sp.maxHealth, isDead := false, state := "idle", target := none,
    lastAttackTime := 0, stateTimer := 0, wanderTarget := none }

/-- Source `dropLoot(creature)`: one independent `Math.random()` roll per drop-table
entry; `rnd i` is the roll for entry `i`.  The emitted ground-item creation
requests are returned as a list of drop events. -/
def dropLoot (rnd : ℕ → ℚ) (sp : Species) : List Drop :=
  sp.dropItems.enum.filterMap
    (fun e => if rnd e.1 < e.2.chance then some ⟨e.2.type, e.2.amount⟩ else none)

/-- Source `killCreature(creature)`: sets `isDead`, zeroes health, and drops loot.
The fade-out animation and the deferred replacement spawn are external. -/
def killCreature (rnd : ℕ → ℚ) (c : Creature) : Creature × List Drop :=
  ({ c with isDead := true, health := 0 }, dropLoot rnd c.speciesData)

/-- Source `damageCreature(creature, damage, attacker)`: returns the updated creature
and the loot drops emitted by death resolution (empty when none occurred).
`attacker` is the optional attacker reference, modelled by its position;
`playerPos` is `this.player.position`. -/
def damageCreature (rnd : ℕ → ℚ) (playerPos : Vec3) (c : Creature)
    (damage : ℚ) (attacker : Option Vec3) : Creature × List Drop :=
  if c.isDead then (c, [])
  else
    let c1 := { c with health := c.health - damage }
    let c2 :=
      if c1.speciesData.behavior = "passive" ∨
         (c1.speciesData.behavior = "neutral" ∧ c1.speciesData.aggroOnHit) then
        { c1 with state := "flee", stateTimer := 5000 }
      else if c1.speciesData.behavior = "neutral" ∨
              c1.speciesData.behavior = "aggressive" then
        { c1 with state := "chase", target := some (attacker.getD playerPos) }
      else c1
    if c2.health ≤ 0 then killCreature rnd c2 else (c2, [])

/-- The `Math.random()` draws a single AI tick may consume. -/
structure Rands where
  idleChance : ℚ
  idleDur : ℚ
  wanderPick : ℚ
  wanderAngle : ℚ
  wanderDist : ℚ
  deriving DecidableEq, Repr

/-- Source `updateIdle(creature, distanceToPlayer, deltaTime)`. -/
def updateIdle (R : Rands) (playerPos : Vec3) (d : ℚ) (c : Creature) : Creature :=
  if c.speciesData.behavior = "aggressive" ∧ d < c.speciesData.detectionRange then
    { c with state := "chase", target := some playerPos }
  else if R.idleChance < 1/100 then
    { c with state := "wander", stateTimer := 3000 + R.idleDur * 5000 }
  else c

/-- Source `updateWander(creature, distanceToPlayer, deltaTime)`. -/
def updateWander (G : Geom) (R : Rands) (playerPos : Vec3) (d : ℚ) (c : Creature) :
    Creature :=
  if c.speciesData.behavior = "aggressive" ∧ d < c.speciesData.detectionRange then
    { c with state := "chase", target := some playerPos }
  else
    let c1 :=
      if c.wanderTarget = none ∨ R.wanderPick < 1/50 then
        let angle := R.wanderAngle * G.pi * 2
        let wdist := 5 + R.wanderDist * 10
        { c with wanderTarget := some ⟨c.position.x + G.cos angle * wdist, 0,
                                       c.position.z + G.sin angle * wdist⟩ }
      else c
    match c1.wanderTarget with
    | some wt =>
      let dir := G.normalize (Vec3.sub wt c1.position)
      { c1 with
        velocity := ⟨dir.x * c1.speciesData.wanderSpeed, c1.velocity.y,
                     dir.z * c1.speciesData.wanderSpeed⟩,
        rotation := G.atan2 dir.x dir.z }
    | none => c1

/-- Source `updateChase(creature, distanceToPlayer, deltaTime)`.  Note the source
moves the creature toward `this.player.position` (not toward `creature.target`). -/
def updateChase (G : Geom) (playerPos : Vec3) (d : ℚ) (c : Creature) : Creature :=
  if d < c.speciesData.attackRange then { c with state := "attack" }
  else if d > c.speciesData.detectionRange * (3/2) then
    { c with state := "idle", target := none }
  else
    let dir := G.normalize (Vec3.sub playerPos c.position)
    { c with
      velocity := ⟨dir.x * c.speciesData.speed, c.velocity.y,
                   dir.z * c.speciesData.speed⟩,
      rotation := G.atan2 dir.x dir.z }

/-- Source `updateAttack(creature, distanceToPlayer, deltaTime)`.  The returned `Bool`
records whether `performAttack` (the damage-to-player hook) was invoked this
tick.  A missing `attackCooldown` (`undefined` in JS) makes the cooldown
comparison false, so the hook is never invoked. -/
def updateAttack (G : Geom) (playerPos : Vec3) (d : ℚ) (now : ℚ) (c : Creature) :
    Creature × Bool :=
  if d > c.speciesData.attackRange * (6/5) then ({ c with state := "chase" }, false)
  else
    let c1 := { c with velocity := ⟨0, c.velocity.y, 0⟩ }
    let dir := G.normalize (Vec3.sub playerPos c1.position)
    let c2 := { c1 with rotation := G.atan2 dir.x dir.z }
    match c2.speciesData.attackCooldown with
    | some cd =>
      if now - c2.lastAttackTime > cd then ({ c2 with lastAttackTime := now }, true)
      else (c2, false)
    | none => (c2, false)

/-- Source `updateFlee(creature, distanceToPlayer, deltaTime)`.  Species that never
flee have no `fleeSpeed` in the source (`undefined`, giving NaN velocity);
the model defaults it to 0 — no claim depends on flee velocity. -/
def updateFlee (G : Geom) (playerPos : Vec3) (c : Creature) : Creature :=
  let dir := G.normalize (Vec3.sub c.position playerPos)
  let fs := c.speciesData.fleeSpeed.getD 0
  { c with
    velocity := ⟨dir.x * fs, c.velocity.y, dir.z * fs⟩,
    rotation := G.atan2 dir.x dir.z }

/-- Source `applyMovement(creature, deltaTime)`: integrate velocity, snap the Y
position to the terrain height, damp velocity by 0.9. -/
def applyMovement (terrain : ℚ → ℚ → ℚ) (dt : ℚ) (c : Creature) : Creature :=
  let px := c.position.x + c.velocity.x * dt
  let pz := c.position.z + c.velocity.z * dt
  { c with
    position := ⟨px, terrain px pz, pz⟩,
    velocity := ⟨c.velocity.x * (9/10), c.velocity.y * (9/10),
                 c.velocity.z * (9/10)⟩ }

/-- The state-timer countdown at the top of `updateCreature`: a running timer
is decremented by `deltaTime * 1000` and, on expiry, the state falls back to
`idle`. -/
def tickStateTimer (dt : ℚ) (c : Creature) : Creature :=
  if c.stateTimer > 0 then
    let t := c.stateTimer - dt * 1000
    if t ≤ 0 then { c with stateTimer := t, state := "idle" }
    else { c with stateTimer := t }
  else c

/-- The `switch (creature.state)` dispatch of `updateCreature`. -/
def dispatchState (G : Geom) (R : Rands) (playerPos : Vec3) (d now : ℚ)
    (c : Creature) : Creature × Bool :=
  if c.state = "idle" then (updateIdle R playerPos d c, false)
  else if c.state = "wander" then (updateWander G R playerPos d c, false)
  else if c.state = "chase" then (updateChase G playerPos d c, false)
  else if c.state = "attack" then updateAttack G playerPos d now c
  else if c.state = "flee" then (updateFlee G playerPos c, false)
  else (c, false)

/-- Source `updateCreature(creature, deltaTime)`: state-timer countdown, distance
computation, the state-machine switch, then movement integration.  The
returned `Bool` records whether `performAttack` fired. -/
def updateCreature (G : Geom) (R : Rands) (terrain : ℚ → ℚ → ℚ)
    (playerPos : Vec3) (now dt : ℚ) (c : Creature) : Creature × Bool :=
  let c1 := tickStateTimer dt c
  let d := G.dist c1.position playerPos
  let sc := dispatchState G R playerPos d now c1
  (applyMovement terrain dt sc.1, sc.2)

/-- Per-creature step of `CreatureSystem.update(deltaTime)`: dead agents are
skipped. -/
def updateOne (G : Geom) (R : Rands) (terrain : ℚ → ℚ → ℚ)
    (playerPos : Vec3) (now dt : ℚ) (c : Creature) : Creature :=
  if c.isDead then c else (updateCreature G R terrain playerPos now dt c).1

/-- Source `CreatureSystem.update(deltaTime)` over the creature collection. -/
def updateAllCreatures (G : Geom) (R : Rands) (terrain : ℚ → ℚ → ℚ)
    (playerPos : Vec3) (now dt : ℚ) (cs : List Creature) : List Creature :=
  cs.map (updateOne G R terrain playerPos now dt)

/-- One observable operation on a single creature agent after spawning:
a `damageCreature` call or one scheduler tick. -/
inductive CreatureOp where
  | damage (rnd : ℕ → ℚ) (playerPos : Vec3) (dmg : ℚ) (attacker : Option Vec3)
  | tick (G : Geom) (R : Rands) (terrain : ℚ → ℚ → ℚ) (playerPos : Vec3)
      (now dt : ℚ)

def applyCreatureOp (c : Creature) : CreatureOp → Creature
  | .damage rnd playerPos dmg attacker => (damageCreature rnd playerPos c dmg attacker).1
  | .tick G R terrain playerPos now dt => updateOne G R terrain playerPos now dt c

def runCreatureOps (c : Creature) (ops : List CreatureOp) : Creature :=
  ops.foldl applyCreatureOp c

/-- Loop body of `getClosestCreature`. -/
def closestCreatureAux (dist : Vec3 → Vec3 → ℚ) (p : Vec3) :
    List Creature → Option Creature → ℚ → Option Creature
  | [], best, _ => best
  | c :: rest, best, bestDist =>
    if c.isDead then closestCreatureAux dist p rest best bestDist
    else if dist p c.position < bestDist then
      closestCreatureAux dist p rest (some c) (dist p c.position)
    else closestCreatureAux dist p rest best bestDist

/-- Source `getClosestCreature(position, maxDistance)` over an explicit creature list. -/
def getClosestCreature (dist : Vec3 → Vec3 → ℚ) (cs : List Creature)
    (position : Vec3) (maxDistance : ℚ) : Option Creature :=
  closestCreatureAux dist position cs none maxDistance

/-- One invocation of the attack-state handler: the `Date.now()` timestamp and
the distance to the player at that invocation. -/
structure AttackTick where
  time : ℚ
  dist : ℚ
  deriving DecidableEq, Repr

/-- Run a sequence of attack-state handler invocations, collecting the
timestamps at which `performAttack` fired (in order). -/
def attackFires (G : Geom) (playerPos : Vec3) :
    Creature → List AttackTick → List ℚ
  | _, [] => []
  | c, tk :: rest =>
    let r := updateAttack G playerPos tk.dist tk.time c
    if r.2 then tk.time :: attackFires G playerPos r.1 rest
    else attackFires G playerPos r.1 rest

/-- The two `Math.random()` draws of one spawn-position attempt. -/
structure SpawnRand where
  angle : ℚ
  dist : ℚ
  deriving DecidableEq, Repr

/-- The attempt loop of `findSpawnPosition`. -/
def findSpawnAux (G : Geom) (terrain : ℚ → ℚ → ℚ) (spawnRadius : ℚ) :
    List SpawnRand → Option Vec3
  | [] => none
  | r :: rest =>
    let angle := r.angle * G.pi * 2
    let distance := 20 + r.dist * spawnRadius
    let x := G.cos angle * distance
    let z := G.sin angle * distance
    let height := terrain x z
    if height > -1 ∧ height < 15 then some ⟨x, height, z⟩
    else findSpawnAux G terrain spawnRadius rest

/-- Source `findSpawnPosition()`: up to 20 attempts, `rnd i` giving the random draws
of attempt `i`; `none` models the `null` return. -/
def findSpawnPosition (G : Geom) (terrain : ℚ → ℚ → ℚ) (spawnRadius : ℚ)
    (rnd : ℕ → SpawnRand) : Option Vec3 :=
  findSpawnAux G terrain spawnRadius ((List.range 20).map rnd)

/-- The cumulative-weight selection loop of `spawnRandomCreature`:
`selected` starts as `species[0]` and the loop breaks at the first species
driving the running total to or below zero. -/
def selectLoop (selected : Species) : List Species → ℚ → Species
  | [], _ => selected
  | sp :: rest, random =>
    let random1 := random - sp.spawnWeight
    if random1 ≤ 0 then sp else selectLoop selected rest random1

/-- Weighted species selection from `spawnRandomCreature`; `r` is the
`Math.random()` draw. -/
def selectSpecies (speciesL : List Species) (r : ℚ) : Option Species :=
  match speciesL with
  | [] => none
  | first :: _ =>
    let totalWeight := speciesL.foldl (fun s sp => s + sp.spawnWeight) 0
    some (selectLoop first speciesL (r * totalWeight))

/-- Source `spawnRandomCreature()`: weighted species draw, spawn-position search, and
— only when a position was found — appending one new creature. -/
def spawnRandomCreature (G : Geom) (terrain : ℚ → ℚ → ℚ) (spawnRadius : ℚ)
    (speciesL : List Species) (rSel : ℚ) (rnd : ℕ → SpawnRand) (idv rot : ℚ)
    (cs : List Creature) : List Creature :=
  match selectSpecies speciesL rSel, findSpawnPosition G terrain spawnRadius rnd with
  | some sp, some p => cs ++ [spawnCreature sp p idv rot]
  | _, _ => cs

/-- Invariant maintained by the node lifecycle: a gatherable node has health
in `[1, maxHealth]`, a depleted node has health in `[-1, 0]`. -/
def NodeInv (n : ResourceNode) : Prop :=
  1 ≤ n.maxHealth ∧
  ((n.canGather = true ∧ 1 ≤ n.health ∧ n.health ≤ n.maxHealth) ∨
   (n.canGather = false ∧ -1 ≤ n.health ∧ n.health ≤ 0))

/-- Invariant on creature agents: a dead agent has zero health. -/
def CreatureInv (c : Creature) : Prop := c.isDead = true → c.health = 0

/-- Concrete instance of the external math functions, used to evaluate the
model at specific inputs: taxicab distance (which agrees with the Euclidean
`distanceTo` whenever the difference vector is axis-aligned, as in all the
concrete configurations below), identity `normalize` (exact on unit
axis-aligned vectors), and constant trigonometry `cos = 1`, `sin = 0`
(satisfying `cos² + sin² = 1`). -/
def exGeom : Geom :=
  { pi := 3, cos := fun _ => 1, sin := fun _ => 0, atan2 := fun _ _ => 0,
    dist := fun a b => |b.x - a.x| + |b.y - a.y| + |b.z - a.z|,
    normalize := fun v => v }

def exTerrain : ℚ → ℚ → ℚ := fun _ _ => 0

def exRands : Rands := ⟨1, 0, 1, 0, 0⟩

def exRnd : ℕ → ℚ := fun _ => 1

/-- A freshly spawned wolf (used in concrete evaluations). -/
def wolfEx : Creature := spawnCreature wolfSpec ⟨0, 0, 0⟩ 0 0

/-- A freshly spawned boar. -/
def boarEx : Creature := spawnCreature boarSpec ⟨0, 0, 0⟩ 0 0

/-- A dead wolf (the state `killCreature` leaves behind). -/
def deadWolfEx : Creature := { wolfEx with isDead := true, health := 0 }

/-- A live wolf in the chase state with a leftover state timer of 500 ms
(reachable: an aggressive creature damaged while wandering keeps its wander
timer), with the player one unit away. -/
def chaseWolfTimerEx : Creature :=
  { wolfEx with state := "chase", stateTimer := 500, target := some ⟨1, 0, 0⟩ }

/-- A live wolf in the chase state with no pending state timer. -/
def chaseWolfEx : Creature :=
  { wolfEx with state := "chase", target := some ⟨10, 0, 0⟩ }

/-- A live wolf in the attack state. -/
def attackWolfEx : Creature := { wolfEx with state := "attack" }

/-! ## Theorems -/

theorem nodeInv_applyNodeOp (n : ResourceNode) (op : NodeOp) (h : NodeInv n) :
    NodeInv (applyNodeOp n op) := by
  obtain ⟨hmax, hc⟩ := h
  cases op with
  | gather now mult =>
    rcases hc with ⟨hg, h1, h2⟩ | ⟨hg, h1, h2⟩
    · by_cases hm : 2 ≤ mult <;>
        [(by_cases hd : n.health - 2 ≤ 0); (by_cases hd : n.health - 1 ≤ 0)] <;>
        simp only [applyNodeOp, gatherResource, depleteNode, hg, hm, hd,
          Bool.not_true, Bool.false_eq_true, if_false, if_true, if_pos, if_neg,
          not_false_iff] <;>
        refine ⟨hmax, ?_⟩ <;> simp_all <;> omega
    · simp only [applyNodeOp, gatherResource, hg, Bool.not_false, if_pos]
      exact ⟨hmax, Or.inr ⟨hg, h1, h2⟩⟩
  | tick now =>
    simp only [applyNodeOp, tickNode]
    cases ht : n.respawnTimer with
    | none => exact ⟨hmax, hc⟩
    | some deadline =>
      by_cases hdl : deadline ≤ now
      · simp only [hdl, if_true, respawnNode]
        exact ⟨hmax, Or.inl ⟨rfl, hmax, le_refl _⟩⟩
      · simp only [hdl, if_false]
        exact ⟨hmax, hc⟩

theorem nodeInv_runNodeOps (n : ResourceNode) (ops : List NodeOp) (h : NodeInv n) :
    NodeInv (runNodeOps n ops) := by
  induction ops generalizing n with
  | nil => exact h
  | cons op rest ih =>
    simpa only [runNodeOps, List.foldl_cons] using ih _ (nodeInv_applyNodeOp n op h)

theorem nodeInv_create (t : String) (pos : Vec3) : NodeInv (createResourceNode t pos) := by
  have hmax : 1 ≤ getMaxHealth t := by
    unfold getMaxHealth; split_ifs <;> omega
  exact ⟨hmax, Or.inl ⟨rfl, hmax, le_refl _⟩⟩

/-- C1 (amended).  Throughout the node lifecycle — node creation followed
by any sequence of `gatherResource` calls (which invoke `depleteNode`
internally when health reaches 0 or below) and respawn-timer firings
(`respawnNode`) — the node's health never drops below `-1`, and
`canGather == false` holds exactly when `health ≤ 0`.  The claim's stronger
form (health never negative, `canGather == false ⇔ health == 0`) is false:
depletion does not clamp health, see the counterexample. -/
theorem c1_lifecycle_invariant (t : String) (pos : Vec3) (ops : List NodeOp) :
    -1 ≤ (runNodeOps (createResourceNode t pos) ops).health ∧
    ((runNodeOps (createResourceNode t pos) ops).canGather = false ↔
      (runNodeOps (createResourceNode t pos) ops).health ≤ 0) := by
  obtain ⟨hmax, hc⟩ := nodeInv_runNodeOps _ ops (nodeInv_create t pos)
  rcases hc with ⟨hg, h1, h2⟩ | ⟨hg, h1, h2⟩ <;> rw [hg] <;>
    refine ⟨by omega, ?_⟩ <;> simp <;> omega

/-- C1 counterexample: a tree node (maxHealth 5) gathered three times with
`amountMultiplier = 2` (damage 2 per hit) ends with `health = -1 < 0` while
`canGather = false` — health does go negative, and
`canGather == false ⇔ health == 0` fails. -/
theorem c1_counterexample :
    (runNodeOps (createResourceNode "tree" ⟨0, 0, 0⟩)
        [.gather 100 2, .gather 200 2, .gather 300 2]).health < 0 ∧
    (runNodeOps (createResourceNode "tree" ⟨0, 0, 0⟩)
        [.gather 100 2, .gather 200 2, .gather 300 2]).canGather = false := by
  constructor <;> decide

/-- Witness for C1: the amended invariant evaluated after two multiplier-1
gathers on a tree node (health 3, still gatherable). -/
theorem c1_witness :
    -1 ≤ (runNodeOps (createResourceNode "tree" ⟨0, 0, 0⟩)
        [.gather 0 1, .gather 1 1]).health ∧
    ((runNodeOps (createResourceNode "tree" ⟨0, 0, 0⟩)
        [.gather 0 1, .gather 1 1]).canGather = false ↔
      (runNodeOps (createResourceNode "tree" ⟨0, 0, 0⟩)
        [.gather 0 1, .gather 1 1]).health ≤ 0) :=
  c1_lifecycle_invariant "tree" ⟨0, 0, 0⟩ [.gather 0 1, .gather 1 1]

/-- C2 (confirmed).  On a gatherable node of a known type,
`gatherResource` subtracts exactly 2 health when `amountMultiplier ≥ 2` and
exactly 1 otherwise, and always returns the type-determined drop
(tree→wood, rock→stone, plant→fiber×2) with amount
`floor(baseAmount × amountMultiplier)` — whether or not the call depletes
the node. -/
theorem c2_gather_damage_and_drop (now : ℤ) (node : ResourceNode) (mult : ℚ)
    (hg : node.canGather = true)
    (ht : node.type = "tree" ∨ node.type = "rock" ∨ node.type = "plant") :
    (gatherResource now node mult).1.health =
      node.health - (if 2 ≤ mult then 2 else 1) ∧
    (gatherResource now node mult).2 =
      some { itemType := if node.type = "tree" then "wood"
                         else if node.type = "rock" then "stone" else "fiber",
             amount := ⌊(((if node.type = "plant" then 2 else 1 : ℤ)) : ℚ) * mult⌋ } := by
  constructor
  · by_cases hm : 2 ≤ mult <;>
      simp only [gatherResource, depleteNode, hg, hm, Bool.not_true,
        Bool.false_eq_true, if_false, if_true] <;>
      split <;> rfl
  · rcases ht with h | h | h <;>
      simp [gatherResource, getResourceDrop, hg, h]

/-- Witness for C2: gathering a fresh tree with multiplier 2 deals 2 damage
(5 → 3) and yields `{wood, 2}`. -/
theorem c2_witness :
    (createResourceNode "tree" ⟨0, 0, 0⟩).canGather = true ∧
    ((gatherResource 0 (createResourceNode "tree" ⟨0, 0, 0⟩) 2).1.health =
        (createResourceNode "tree" ⟨0, 0, 0⟩).health - (if 2 ≤ (2 : ℚ) then 2 else 1) ∧
      (gatherResource 0 (createResourceNode "tree" ⟨0, 0, 0⟩) 2).2 =
        some { itemType := if (createResourceNode "tree" ⟨0, 0, 0⟩).type = "tree" then "wood"
                           else if (createResourceNode "tree" ⟨0, 0, 0⟩).type = "rock" then "stone"
                           else "fiber",
               amount := ⌊(((if (createResourceNode "tree" ⟨0, 0, 0⟩).type = "plant" then 2 else 1 : ℤ)) : ℚ) * 2⌋ }) :=
  ⟨by decide, c2_gather_damage_and_drop 0 (createResourceNode "tree" ⟨0, 0, 0⟩) 2
    (by decide) (by decide)⟩

/-- C3 (confirmed).  `damageCreature` on an already-dead agent is a
complete no-op: the agent record (health, behavior state, state timer,
target, everything) is returned unchanged, death resolution is not invoked
again, and no loot drop is emitted. -/
theorem c3_dead_damage_noop (rnd : ℕ → ℚ) (playerPos : Vec3) (c : Creature)
    (damage : ℚ) (attacker : Option Vec3) (h : c.isDead = true) :
    damageCreature rnd playerPos c damage attacker = (c, []) := by
  simp [damageCreature, h]

/-- Witness for C3: damaging a dead wolf changes nothing and drops nothing. -/
theorem c3_witness :
    deadWolfEx.isDead = true ∧
    damageCreature exRnd ⟨0, 0, 0⟩ deadWolfEx 10 none = (deadWolfEx, []) :=
  ⟨by decide, c3_dead_damage_noop exRnd ⟨0, 0, 0⟩ deadWolfEx 10 none (by decide)⟩

theorem tickStateTimer_isDead (dt : ℚ) (c : Creature) :
    (tickStateTimer dt c).isDead = c.isDead := by
  simp only [tickStateTimer]
  repeat' split
  all_goals rfl

theorem tickStateTimer_health (dt : ℚ) (c : Creature) :
    (tickStateTimer dt c).health = c.health := by
  simp only [tickStateTimer]
  repeat' split
  all_goals rfl

theorem updateIdle_isDead (R : Rands) (playerPos : Vec3) (d : ℚ) (c : Creature) :
    (updateIdle R playerPos d c).isDead = c.isDead := by
  simp only [updateIdle]
  repeat' split
  all_goals rfl

theorem updateIdle_health (R : Rands) (playerPos : Vec3) (d : ℚ) (c : Creature) :
    (updateIdle R playerPos d c).health = c.health := by
  simp only [updateIdle]
  repeat' split
  all_goals rfl

theorem updateWander_isDead (G : Geom) (R : Rands) (playerPos : Vec3) (d : ℚ)
    (c : Creature) : (updateWander G R playerPos d c).isDead = c.isDead := by
  simp only [updateWander]
  repeat' split
  all_goals rfl

theorem updateWander_health (G : Geom) (R : Rands) (playerPos : Vec3) (d : ℚ)
    (c : Creature) : (updateWander G R playerPos d c).health = c.health := by
  simp only [updateWander]
  repeat' split
  all_goals rfl

theorem updateChase_isDead (G : Geom) (playerPos : Vec3) (d : ℚ) (c : Creature) :
    (updateChase G playerPos d c).isDead = c.isDead := by
  simp only [updateChase]
  repeat' split
  all_goals rfl

theorem updateChase_health (G : Geom) (playerPos : Vec3) (d : ℚ) (c : Creature) :
    (updateChase G playerPos d c).health = c.health := by
  simp only [updateChase]
  repeat' split
  all_goals rfl

theorem updateAttack_isDead (G : Geom) (playerPos : Vec3) (d now : ℚ)
    (c : Creature) : ((updateAttack G playerPos d now c).1).isDead = c.isDead := by
  simp only [updateAttack]
  repeat' split
  all_goals rfl

theorem updateAttack_health (G : Geom) (playerPos : Vec3) (d now : ℚ)
    (c : Creature) : ((updateAttack G playerPos d now c).1).health = c.health := by
  simp only [updateAttack]
  repeat' split
  all_goals rfl

theorem updateFlee_isDead (G : Geom) (playerPos : Vec3) (c : Creature) :
    (updateFlee G playerPos c).isDead = c.isDead := rfl

theorem updateFlee_health (G : Geom) (playerPos : Vec3) (c : Creature) :
    (updateFlee G playerPos c).health = c.health := rfl

theorem applyMovement_isDead (terrain : ℚ → ℚ → ℚ) (dt : ℚ) (c : Creature) :
    (applyMovement terrain dt c).isDead = c.isDead := rfl

theorem applyMovement_health (terrain : ℚ → ℚ → ℚ) (dt : ℚ) (c : Creature) :
    (applyMovement terrain dt c).health = c.health := rfl

theorem dispatchState_isDead (G : Geom) (R : Rands) (playerPos : Vec3)
    (d now : ℚ) (c : Creature) :
    ((dispatchState G R playerPos d now c).1).isDead = c.isDead := by
  simp only [dispatchState]
  repeat' split
  all_goals simp [updateIdle_isDead, updateWander_isDead, updateChase_isDead,
    updateAttack_isDead, updateFlee_isDead]

theorem dispatchState_health (G : Geom) (R : Rands) (playerPos : Vec3)
    (d now : ℚ) (c : Creature) :
    ((dispatchState G R playerPos d now c).1).health = c.health := by
  simp only [dispatchState]
  repeat' split
  all_goals simp [updateIdle_health, updateWander_health, updateChase_health,
    updateAttack_health, updateFlee_health]

theorem updateCreature_isDead (G : Geom) (R : Rands) (terrain : ℚ → ℚ → ℚ)
    (playerPos : Vec3) (now dt : ℚ) (c : Creature) :
    ((updateCreature G R terrain playerPos now dt c).1).isDead = c.isDead := by
  simp only [updateCreature, applyMovement_isDead, dispatchState_isDead,
    tickStateTimer_isDead]

theorem updateCreature_health (G : Geom) (R : Rands) (terrain : ℚ → ℚ → ℚ)
    (playerPos : Vec3) (now dt : ℚ) (c : Creature) :
    ((updateCreature G R terrain playerPos now dt c).1).health = c.health := by
  simp only [updateCreature, applyMovement_health, dispatchState_health,
    tickStateTimer_health]

theorem creatureInv_applyCreatureOp (c : Creature) (op : CreatureOp)
    (h : CreatureInv c) : CreatureInv (applyCreatureOp c op) := by
  cases op with
  | damage rnd playerPos dmg attacker =>
    intro hdead
    by_cases hd : c.isDead = true
    · simp only [applyCreatureOp, damageCreature, hd, if_true] at hdead ⊢
      exact h hd
    · simp only [applyCreatureOp, damageCreature, killCreature] at hdead ⊢
      split_ifs at hdead ⊢ <;> simp_all
  | tick G R terrain playerPos now dt =>
    intro hdead
    unfold applyCreatureOp updateOne at *
    split_ifs at * with hd
    · exact h hdead
    · rw [updateCreature_isDead] at hdead
      rw [updateCreature_health]
      exact h hdead

theorem creatureInv_runCreatureOps (c : Creature) (ops : List CreatureOp)
    (h : CreatureInv c) : CreatureInv (runCreatureOps c ops) := by
  induction ops generalizing c with
  | nil => exact h
  | cons op rest ih =>
    simpa only [runCreatureOps, List.foldl_cons] using
      ih _ (creatureInv_applyCreatureOp c op h)

theorem closestCreatureAux_not_dead (dist : Vec3 → Vec3 → ℚ) (p : Vec3) :
    ∀ (cs : List Creature) (best : Option Creature) (bd : ℚ),
      (∀ b, best = some b → b.isDead = false) →
      ∀ c, closestCreatureAux dist p cs best bd = some c → c.isDead = false := by
  intro cs
  induction cs with
  | nil =>
    intro best bd hb c hc
    exact hb c hc
  | cons a rest ih =>
    intro best bd hb c hc
    unfold closestCreatureAux at hc
    split_ifs at hc with hd hlt
    · exact ih best bd hb c hc
    · refine ih (some a) (dist p a.position) (fun b hba => ?_) c hc
      cases hba
      simpa using hd
    · exact ih best bd hb c hc

/-- C4 (confirmed).  (1) Along any agent lifecycle (spawn followed by
damage calls and scheduler ticks), `isDead == true` implies `health == 0`;
(2) `getClosestCreature` never returns a dead agent, regardless of distance;
(3) the per-tick AI update skips dead agents (leaves them unchanged). -/
theorem c4_dead_agents (sp : Species) (pos : Vec3) (idv rot : ℚ)
    (ops : List CreatureOp) (dist : Vec3 → Vec3 → ℚ) (cs : List Creature)
    (p : Vec3) (maxD : ℚ) (G : Geom) (R : Rands) (terrain : ℚ → ℚ → ℚ)
    (playerPos : Vec3) (now dt : ℚ) (c' : Creature) :
    ((runCreatureOps (spawnCreature sp pos idv rot) ops).isDead = true →
      (runCreatureOps (spawnCreature sp pos idv rot) ops).health = 0) ∧
    (∀ r, getClosestCreature dist cs p maxD = some r → r.isDead = false) ∧
    (c'.isDead = true → updateOne G R terrain playerPos now dt c' = c') := by
  refine ⟨?_, ?_, ?_⟩
  · exact creatureInv_runCreatureOps _ ops (by intro h; simp [spawnCreature] at h)
  · intro r hr
    exact closestCreatureAux_not_dead dist p cs none maxD (by simp) r hr
  · intro hd
    simp [updateOne, hd]

/-- Witness for C4: a rabbit killed by a 10-damage hit has zero health; a
one-element live-wolf collection returns that wolf (alive); a dead wolf is
untouched by the scheduler step. -/
theorem c4_witness :
    ((runCreatureOps (spawnCreature rabbitSpec ⟨0, 0, 0⟩ 0 0)
        [.damage exRnd ⟨0, 0, 0⟩ 10 none]).isDead = true ∧
      (runCreatureOps (spawnCreature rabbitSpec ⟨0, 0, 0⟩ 0 0)
        [.damage exRnd ⟨0, 0, 0⟩ 10 none]).health = 0) ∧
    (getClosestCreature exGeom.dist [{ wolfEx with position := ⟨1, 0, 0⟩ }]
        ⟨0, 0, 0⟩ 5 = some { wolfEx with position := ⟨1, 0, 0⟩ } ∧
      ({ wolfEx with position := ⟨1, 0, 0⟩ } : Creature).isDead = false) ∧
    (deadWolfEx.isDead = true ∧
      updateOne exGeom exRands exTerrain ⟨0, 0, 0⟩ 0 1 deadWolfEx = deadWolfEx) :=
  ⟨⟨by norm_num [runCreatureOps, applyCreatureOp, damageCreature, killCreature,
      spawnCreature, rabbitSpec, exRnd],
    (c4_dead_agents rabbitSpec ⟨0, 0, 0⟩ 0 0 [.damage exRnd ⟨0, 0, 0⟩ 10 none]
      exGeom.dist [] ⟨0, 0, 0⟩ 5 exGeom exRands exTerrain ⟨0, 0, 0⟩ 0 1
      deadWolfEx).1
      (by norm_num [runCreatureOps, applyCreatureOp, damageCreature,
        killCreature, spawnCreature, rabbitSpec, exRnd])⟩,
   ⟨by norm_num [getClosestCreature, closestCreatureAux, exGeom, wolfEx,
      spawnCreature, wolfSpec],
    (c4_dead_agents rabbitSpec ⟨0, 0, 0⟩ 0 0 [] exGeom.dist
      [{ wolfEx with position := ⟨1, 0, 0⟩ }] ⟨0, 0, 0⟩ 5 exGeom exRands
      exTerrain ⟨0, 0, 0⟩ 0 1 deadWolfEx).2.1 _
      (by norm_num [getClosestCreature, closestCreatureAux, exGeom, wolfEx,
        spawnCreature, wolfSpec])⟩,
   ⟨by rfl,
    (c4_dead_agents rabbitSpec ⟨0, 0, 0⟩ 0 0 [] exGeom.dist [] ⟨0, 0, 0⟩ 5
      exGeom exRands exTerrain ⟨0, 0, 0⟩ 0 1 deadWolfEx).2.2 (by rfl)⟩⟩

/-- C5 (confirmed).  On a live agent, `damageCreature` triggers the
behavioral reaction before the death check, with the flee branch taking
precedence: a passive species, or a neutral species with `aggroOnHit`,
switches to `flee` with a 5000 ms timer; otherwise an aggressive species, or
a neutral species without `aggroOnHit`, switches to `chase` with the target
set to the attacker position (the player's position when no attacker is
given).  Because the reaction precedes the death check, this holds even for
a lethal hit. -/
theorem c5_damage_reaction (rnd : ℕ → ℚ) (playerPos : Vec3) (c : Creature)
    (damage : ℚ) (attacker : Option Vec3) (h : c.isDead = false) :
    ((c.speciesData.behavior = "passive" ∨
        (c.speciesData.behavior = "neutral" ∧ c.speciesData.aggroOnHit = true)) →
      (damageCreature rnd playerPos c damage attacker).1.state = "flee" ∧
      (damageCreature rnd playerPos c damage attacker).1.stateTimer = 5000) ∧
    ((c.speciesData.behavior = "aggressive" ∨
        (c.speciesData.behavior = "neutral" ∧ c.speciesData.aggroOnHit = false)) →
      (damageCreature rnd playerPos c damage attacker).1.state = "chase" ∧
      (damageCreature rnd playerPos c damage attacker).1.target =
        some (attacker.getD playerPos)) := by
  constructor <;> intro hb <;>
    simp only [damageCreature, killCreature, h, Bool.false_eq_true, if_false]
  · rw [if_pos hb]
    split_ifs with hkill <;> simp
  · have hcond : ¬ (c.speciesData.behavior = "passive" ∨
        (c.speciesData.behavior = "neutral" ∧ c.speciesData.aggroOnHit = true)) := by
      intro hc
      rcases hb with h1 | ⟨h1, h2⟩ <;> rcases hc with h3 | ⟨h3, h4⟩ <;>
        rw [h1] at h3 <;>
        first
          | exact absurd h3 (by decide)
          | (rw [h2] at h4; exact absurd h4 (by decide))
    have hcond2 : c.speciesData.behavior = "neutral" ∨
        c.speciesData.behavior = "aggressive" := by
      rcases hb with h1 | ⟨h1, _⟩
      · exact Or.inr h1
      · exact Or.inl h1
    rw [if_neg hcond, if_pos hcond2]
    split_ifs with hkill <;> simp

/-- Witness for C5: a boar (neutral, aggro-on-hit) flees for 5000 ms; a wolf
(aggressive) chases the attacker position. -/
theorem c5_witness :
    boarEx.isDead = false ∧ wolfEx.isDead = false ∧
    ((damageCreature exRnd ⟨0, 0, 0⟩ boarEx 10 (some ⟨5, 0, 0⟩)).1.state = "flee" ∧
      (damageCreature exRnd ⟨0, 0, 0⟩ boarEx 10 (some ⟨5, 0, 0⟩)).1.stateTimer = 5000) ∧
    ((damageCreature exRnd ⟨0, 0, 0⟩ wolfEx 10 (some ⟨5, 0, 0⟩)).1.state = "chase" ∧
      (damageCreature exRnd ⟨0, 0, 0⟩ wolfEx 10 (some ⟨5, 0, 0⟩)).1.target =
        some ((some (⟨5, 0, 0⟩ : Vec3)).getD ⟨0, 0, 0⟩)) :=
  ⟨by rfl, by rfl,
   (c5_damage_reaction exRnd ⟨0, 0, 0⟩ boarEx 10 (some ⟨5, 0, 0⟩) (by rfl)).1
     (Or.inr ⟨by rfl, by rfl⟩),
   (c5_damage_reaction exRnd ⟨0, 0, 0⟩ wolfEx 10 (some ⟨5, 0, 0⟩) (by rfl)).2
     (Or.inl (by rfl))⟩

/-- C6 (confirmed).  (a) A gather call that depletes a node arms the
respawn timer to fire exactly `respawnTime` (60000 ms) later; (b) a depleted
node with an armed timer is completely unchanged by any sequence of gather
calls and of timer checks strictly before the deadline — in particular
`canGather` stays false until the delay elapses; (c) once the deadline is
reached, a timer check alone (no external trigger) restores
`health = maxHealth` and `canGather = true`; (d) the node collection never
shrinks — nodes are never removed. -/
theorem c6_respawn_roundtrip :
    (∀ (now : ℤ) (n : ResourceNode) (mult : ℚ), n.canGather = true →
        (gatherResource now n mult).1.canGather = false →
        (gatherResource now n mult).1.respawnTimer = some (now + n.respawnTime)) ∧
    (∀ (n : ResourceNode) (dl : ℤ) (ops : List NodeOp), n.canGather = false →
        n.respawnTimer = some dl →
        (∀ t, NodeOp.tick t ∈ ops → t < dl) →
        runNodeOps n ops = n) ∧
    (∀ (n : ResourceNode) (dl now : ℤ), n.respawnTimer = some dl → dl ≤ now →
        (tickNode now n).health = n.maxHealth ∧ (tickNode now n).canGather = true) ∧
    (∀ (nodes : List ResourceNode) (ops : List SysOp),
        nodes.length ≤ (runSysOps nodes ops).length) := by
  refine ⟨?_, ?_, ?_, ?_⟩
  · intro now n mult hg hdep
    simp only [gatherResource, hg, Bool.not_true, Bool.false_eq_true, if_false,
      depleteNode] at hdep ⊢
    split_ifs at hdep ⊢ <;> simp_all
  · intro n dl ops hg ht
    induction ops with
    | nil => intro _; rfl
    | cons op rest ih =>
      intro hticks
      have hstep : applyNodeOp n op = n := by
        cases op with
        | gather now mult => simp [applyNodeOp, gatherResource, hg]
        | tick now =>
          have hlt : now < dl := hticks now (List.mem_cons_self _ _)
          simp [applyNodeOp, tickNode, ht, if_neg (by omega : ¬ dl ≤ now)]
      calc runNodeOps n (op :: rest)
          = runNodeOps n rest := by
            simp only [runNodeOps, List.foldl_cons, hstep]
        _ = n := ih (fun t htm => hticks t (List.mem_cons_of_mem _ htm))
  · intro n dl now ht hle
    simp [tickNode, ht, hle, respawnNode]
  · intro nodes ops
    induction ops generalizing nodes with
    | nil => exact le_refl _
    | cons op rest ih =>
      calc nodes.length ≤ (applySysOp nodes op).length := by
            cases op <;> simp [applySysOp]
        _ ≤ (runSysOps (applySysOp nodes op) rest).length := ih _
        _ = (runSysOps nodes (op :: rest)).length := by
            simp only [runSysOps, List.foldl_cons]

/-- Witness for C6 on a plant node (maxHealth 2): a multiplier-2 gather at
time 5 depletes it and arms the timer for 60005; ticks at 60004 and stray
gathers leave the depleted node untouched; the tick at 60005 restores it;
and a create/gather/tick sequence never shrinks a one-node collection. -/
theorem c6_witness :
    ((gatherResource 5 (createResourceNode "plant" ⟨0, 0, 0⟩) 2).1.canGather = false ∧
      (gatherResource 5 (createResourceNode "plant" ⟨0, 0, 0⟩) 2).1.respawnTimer =
        some (5 + (createResourceNode "plant" ⟨0, 0, 0⟩).respawnTime)) ∧
    runNodeOps (gatherResource 5 (createResourceNode "plant" ⟨0, 0, 0⟩) 2).1
        [.tick 60004, .gather 30000 1] =
      (gatherResource 5 (createResourceNode "plant" ⟨0, 0, 0⟩) 2).1 ∧
    ((tickNode 60005 (gatherResource 5 (createResourceNode "plant" ⟨0, 0, 0⟩) 2).1).health =
        (gatherResource 5 (createResourceNode "plant" ⟨0, 0, 0⟩) 2).1.maxHealth ∧
      (tickNode 60005 (gatherResource 5 (createResourceNode "plant" ⟨0, 0, 0⟩) 2).1).canGather = true) ∧
    [createResourceNode "tree" ⟨0, 0, 0⟩].length ≤
      (runSysOps [createResourceNode "tree" ⟨0, 0, 0⟩]
        [.gatherAt 0 0 1, .tickAll 7, .create "rock" ⟨1, 0, 0⟩]).length :=
  ⟨⟨by decide,
    c6_respawn_roundtrip.1 5 (createResourceNode "plant" ⟨0, 0, 0⟩) 2
      (by decide) (by decide)⟩,
   c6_respawn_roundtrip.2.1 _ 60005 [.tick 60004, .gather 30000 1] (by decide)
     (by decide)
     (by
       intro t htm
       simp only [List.mem_cons, List.not_mem_nil, or_false] at htm
       rcases htm with h | h
       · cases h; omega
       · cases h),
   c6_respawn_roundtrip.2.2.1 _ 60005 60005 (by decide) (by decide),
   c6_respawn_roundtrip.2.2.2 [createResourceNode "tree" ⟨0, 0, 0⟩]
     [.gatherAt 0 0 1, .tickAll 7, .create "rock" ⟨1, 0, 0⟩]⟩

theorem applyMovement_state (terrain : ℚ → ℚ → ℚ) (dt : ℚ) (c : Creature) :
    (applyMovement terrain dt c).state = c.state := rfl

theorem applyMovement_target (terrain : ℚ → ℚ → ℚ) (dt : ℚ) (c : Creature) :
    (applyMovement terrain dt c).target = c.target := rfl

/-- C7 (amended).  For a live agent in the chase state whose state timer
is not running out during this tick (`stateTimer ≤ 0`, or it stays positive
after the tick's decrement), and whose species has
`attackRange ≤ 1.5 × detectionRange` (true of every species in the
registry): one scheduler tick moves it to `attack` exactly when the distance
to the player is `< attackRange`, to `idle` (with the target cleared)
exactly when the distance is `> 1.5 × detectionRange`, and otherwise leaves
it in `chase` while moving it directly toward the player's position (the
chase target) at the species speed (scaled by `deltaTime`).  An idle
aggressive agent with the player closer than `detectionRange` (the wolf
scenario, `10 < 25`) enters `chase` in one tick.  The unamended claim fails
for a chase agent whose leftover state timer expires during the tick — see
the counterexample. -/
theorem c7_chase_transitions (G : Geom) (R : Rands) (terrain : ℚ → ℚ → ℚ)
    (playerPos : Vec3) (now dt : ℚ) (c : Creature)
    (hlive : c.isDead = false)
    (htimer : c.stateTimer ≤ 0 ∨ 0 < c.stateTimer - dt * 1000)
    (hrange : c.speciesData.attackRange ≤ c.speciesData.detectionRange * (3/2)) :
    (c.state = "chase" →
      ((updateCreature G R terrain playerPos now dt c).1.state = "attack" ↔
        G.dist c.position playerPos < c.speciesData.attackRange) ∧
      ((updateCreature G R terrain playerPos now dt c).1.state = "idle" ↔
        G.dist c.position playerPos > c.speciesData.detectionRange * (3/2)) ∧
      ((updateCreature G R terrain playerPos now dt c).1.state = "idle" →
        (updateCreature G R terrain playerPos now dt c).1.target = none) ∧
      (¬ G.dist c.position playerPos < c.speciesData.attackRange →
        ¬ G.dist c.position playerPos > c.speciesData.detectionRange * (3/2) →
        (updateCreature G R terrain playerPos now dt c).1.state = "chase" ∧
        (updateCreature G R terrain playerPos now dt c).1.position.x =
          c.position.x + (G.normalize (Vec3.sub playerPos c.position)).x *
            c.speciesData.speed * dt ∧
        (updateCreature G R terrain playerPos now dt c).1.position.z =
          c.position.z + (G.normalize (Vec3.sub playerPos c.position)).z *
            c.speciesData.speed * dt)) ∧
    (c.state = "idle" → c.speciesData.behavior = "aggressive" →
      G.dist c.position playerPos < c.speciesData.detectionRange →
      (updateCreature G R terrain playerPos now dt c).1.state = "chase") := by
  have hc1 : tickStateTimer dt c = c ∨
      tickStateTimer dt c = { c with stateTimer := c.stateTimer - dt * 1000 } := by
    by_cases hst : c.stateTimer > 0
    · right
      have h2 : ¬ c.stateTimer - dt * 1000 ≤ 0 := by
        rcases htimer with h | h
        · exact absurd hst (by linarith)
        · linarith
      simp [tickStateTimer, hst, h2]
    · left
      simp [tickStateTimer, hst]
  rcases hc1 with hc1 | hc1 <;>
    (constructor
     · intro hchase
       by_cases hA : G.dist c.position playerPos < c.speciesData.attackRange
       · have hI : ¬ G.dist c.position playerPos >
             c.speciesData.detectionRange * (3/2) := by linarith
         refine ⟨?_, ?_, ?_, ?_⟩ <;>
           simp [updateCreature, hc1, dispatchState, hchase, updateChase, hA,
             hI, applyMovement]
       · by_cases hI : G.dist c.position playerPos >
             c.speciesData.detectionRange * (3/2)
         · refine ⟨?_, ?_, ?_, ?_⟩ <;>
             simp [updateCreature, hc1, dispatchState, hchase, updateChase, hA,
               hI, applyMovement]
         · refine ⟨?_, ?_, ?_, ?_⟩ <;>
             simp [updateCreature, hc1, dispatchState, hchase, updateChase, hA,
               hI, applyMovement] <;> ring
     · intro hidle hagg hdet
       simp [updateCreature, hc1, dispatchState, hidle, updateIdle, hagg, hdet,
         applyMovement])

/-- C7 counterexample: a live wolf in `chase` with a leftover 500 ms state
timer and the player at distance 1 (inside `attackRange = 2`): a tick with
`deltaTime = 1` s expires the timer, the agent falls back to `idle` and
re-aggros to `chase` — it does not enter `attack`, refuting "transitions to
attack exactly when distance < attackRange". -/
theorem c7_counterexample :
    chaseWolfTimerEx.isDead = false ∧ chaseWolfTimerEx.state = "chase" ∧
    exGeom.dist chaseWolfTimerEx.position ⟨1, 0, 0⟩ <
      chaseWolfTimerEx.speciesData.attackRange ∧
    (updateCreature exGeom exRands exTerrain ⟨1, 0, 0⟩ 0 1
        chaseWolfTimerEx).1.state ≠ "attack" := by
  refine ⟨by rfl, by rfl, ?_, ?_⟩
  · norm_num [exGeom, chaseWolfTimerEx, wolfEx, spawnCreature, wolfSpec]
  · norm_num [updateCreature, tickStateTimer, dispatchState, updateIdle,
      applyMovement, chaseWolfTimerEx, wolfEx, spawnCreature, wolfSpec, exGeom,
      exRands, exTerrain]
    decide

/-- Witness for C7: a chase wolf with no pending timer and the player at
distance 10 stays in chase and moves toward the player at speed 12; a fresh
idle wolf with the player at distance 10 < 25 enters chase in one tick. -/
theorem c7_witness :
    ((updateCreature exGeom exRands exTerrain ⟨10, 0, 0⟩ 0 1 chaseWolfEx).1.state = "chase" ∧
      (updateCreature exGeom exRands exTerrain ⟨10, 0, 0⟩ 0 1 chaseWolfEx).1.position.x =
        chaseWolfEx.position.x +
          (exGeom.normalize (Vec3.sub ⟨10, 0, 0⟩ chaseWolfEx.position)).x *
            chaseWolfEx.speciesData.speed * 1 ∧
      (updateCreature exGeom exRands exTerrain ⟨10, 0, 0⟩ 0 1 chaseWolfEx).1.position.z =
        chaseWolfEx.position.z +
          (exGeom.normalize (Vec3.sub ⟨10, 0, 0⟩ chaseWolfEx.position)).z *
            chaseWolfEx.speciesData.speed * 1) ∧
    (updateCreature exGeom exRands exTerrain ⟨10, 0, 0⟩ 0 1 wolfEx).1.state = "chase" :=
  ⟨((c7_chase_transitions exGeom exRands exTerrain ⟨10, 0, 0⟩ 0 1 chaseWolfEx
      (by rfl)
      (Or.inl (by norm_num [chaseWolfEx, wolfEx, spawnCreature]))
      (by norm_num [chaseWolfEx, wolfEx, spawnCreature, wolfSpec])).1
      (by rfl)).2.2.2
      (by norm_num [exGeom, chaseWolfEx, wolfEx, spawnCreature, wolfSpec])
      (by norm_num [exGeom, chaseWolfEx, wolfEx, spawnCreature, wolfSpec]),
   (c7_chase_transitions exGeom exRands exTerrain ⟨10, 0, 0⟩ 0 1 wolfEx
      (by rfl)
      (Or.inl (by norm_num [wolfEx, spawnCreature]))
      (by norm_num [wolfEx, spawnCreature, wolfSpec])).2
      (by rfl) (by rfl)
      (by norm_num [exGeom, wolfEx, spawnCreature, wolfSpec])⟩

theorem updateAttack_speciesData (G : Geom) (playerPos : Vec3) (d now : ℚ)
    (c : Creature) :
    ((updateAttack G playerPos d now c).1).speciesData = c.speciesData := by
  simp only [updateAttack]
  repeat' split
  all_goals rfl

theorem updateAttack_fired_gap (G : Geom) (playerPos : Vec3) (d now : ℚ)
    (c : Creature) (cd : ℚ) (hc : c.speciesData.attackCooldown = some cd)
    (hf : (updateAttack G playerPos d now c).2 = true) :
    now - c.lastAttackTime > cd ∧
    ((updateAttack G playerPos d now c).1).lastAttackTime = now := by
  simp only [updateAttack, hc] at hf ⊢
  split_ifs at hf ⊢ with h1 h2 <;> simp_all

theorem updateAttack_notfired_last (G : Geom) (playerPos : Vec3) (d now : ℚ)
    (c : Creature) (hf : (updateAttack G playerPos d now c).2 = false) :
    ((updateAttack G playerPos d now c).1).lastAttackTime = c.lastAttackTime := by
  simp only [updateAttack] at hf ⊢
  repeat' split at hf
  all_goals (repeat' split)
  all_goals simp_all

theorem attackFires_chain (G : Geom) (playerPos : Vec3) (cd : ℚ) (hcd : 0 ≤ cd) :
    ∀ (ticks : List AttackTick) (c : Creature),
      c.speciesData.attackCooldown = some cd →
      List.Chain' (fun t1 t2 => t1 + cd ≤ t2) (attackFires G playerPos c ticks) ∧
      (∀ t ∈ attackFires G playerPos c ticks, c.lastAttackTime + cd < t) := by
  intro ticks
  induction ticks with
  | nil =>
    intro c hc
    exact ⟨List.chain'_nil, by simp [attackFires]⟩
  | cons tk rest ih =>
    intro c hc
    have hsp : ((updateAttack G playerPos tk.dist tk.time c).1).speciesData.attackCooldown = some cd := by
      rw [updateAttack_speciesData, hc]
    obtain ⟨ihchain, ihall⟩ := ih (updateAttack G playerPos tk.dist tk.time c).1 hsp
    by_cases hf : (updateAttack G playerPos tk.dist tk.time c).2 = true
    · obtain ⟨hgap, hlast⟩ := updateAttack_fired_gap G playerPos tk.dist tk.time c cd hc hf
      have hfl : attackFires G playerPos c (tk :: rest) =
          tk.time :: attackFires G playerPos
            (updateAttack G playerPos tk.dist tk.time c).1 rest := by
        simp [attackFires, hf]
      rw [hfl]
      constructor
      · rw [List.chain'_cons']
        refine ⟨?_, ihchain⟩
        intro b hb
        have hmem : b ∈ attackFires G playerPos
            (updateAttack G playerPos tk.dist tk.time c).1 rest :=
          List.mem_of_mem_head? hb
        have := ihall b hmem
        rw [hlast] at this
        linarith
      · intro t htm
        rcases List.mem_cons.mp htm with h | h
        · subst h; linarith
        · have := ihall t h
          rw [hlast] at this
          linarith
    · have hf0 : (updateAttack G playerPos tk.dist tk.time c).2 = false := by
        simpa using hf
      have hlast := updateAttack_notfired_last G playerPos tk.dist tk.time c hf0
      have hfl : attackFires G playerPos c (tk :: rest) =
          attackFires G playerPos (updateAttack G playerPos tk.dist tk.time c).1 rest := by
        simp [attackFires, hf0]
      rw [hfl]
      refine ⟨ihchain, ?_⟩
      intro t htm
      have := ihall t htm
      rw [hlast] at this
      exact this

/-- C8 (confirmed).  For an agent whose species has a (nonnegative)
`attackCooldown`, any sequence of attack-state handler invocations — at
arbitrary timestamps and tick rates — fires the damage-to-player hook
(`performAttack`) with strictly more than `attackCooldown` ms between
consecutive firings (so at least `attackCooldown` ms elapse), and every
firing resets the cooldown timestamp `lastAttackTime` to the firing time. -/
theorem c8_attack_cadence (G : Geom) (playerPos : Vec3) (c : Creature)
    (ticks : List AttackTick) (cd : ℚ)
    (hc : c.speciesData.attackCooldown = some cd) (hcd : 0 ≤ cd) :
    List.Chain' (fun t1 t2 => t1 + cd ≤ t2) (attackFires G playerPos c ticks) ∧
    (∀ (d now : ℚ) (c' : Creature), (updateAttack G playerPos d now c').2 = true →
      ((updateAttack G playerPos d now c').1).lastAttackTime = now) := by
  refine ⟨(attackFires_chain G playerPos cd hcd ticks c hc).1, ?_⟩
  intro d now c' hf
  simp only [updateAttack] at hf ⊢
  repeat' split at hf
  all_goals (repeat' split)
  all_goals simp_all

/-- Witness for C8: a wolf (cooldown 1500) attacked at ticks with timestamps
2000, 2500, 4000 in range; the firing times satisfy the cadence bound. -/
theorem c8_witness :
    attackWolfEx.speciesData.attackCooldown = some 1500 ∧ (0 : ℚ) ≤ 1500 ∧
    List.Chain' (fun t1 t2 => t1 + 1500 ≤ t2)
      (attackFires exGeom ⟨1, 0, 0⟩ attackWolfEx
        [⟨2000, 1⟩, ⟨2500, 1⟩, ⟨4000, 1⟩]) :=
  ⟨by rfl, by decide,
   (c8_attack_cadence exGeom ⟨1, 0, 0⟩ attackWolfEx
     [⟨2000, 1⟩, ⟨2500, 1⟩, ⟨4000, 1⟩] 1500 (by rfl) (by decide)).1⟩

theorem findSpawnAux_spec (G : Geom) (terrain : ℚ → ℚ → ℚ) (spawnRadius : ℚ)
    (htrig : ∀ a, G.cos a ^ 2 + G.sin a ^ 2 = 1) (hR : 0 < spawnRadius) :
    ∀ (l : List SpawnRand), (∀ r ∈ l, 0 ≤ r.dist ∧ r.dist < 1) →
      ∀ p, findSpawnAux G terrain spawnRadius l = some p →
        20 ^ 2 ≤ p.x ^ 2 + p.z ^ 2 ∧ p.x ^ 2 + p.z ^ 2 < (20 + spawnRadius) ^ 2 ∧
        p.y = terrain p.x p.z ∧ -1 < p.y ∧ p.y < 15 := by
  intro l
  induction l with
  | nil =>
    intro _ p hp
    simp [findSpawnAux] at hp
  | cons r rest ih =>
    intro hl p hp
    simp only [findSpawnAux] at hp
    split_ifs at hp with hband
    · obtain ⟨h0, h1⟩ := hl r (List.mem_cons_self _ _)
      obtain ⟨hb1, hb2⟩ := hband
      cases hp
      have hd1 : (20 : ℚ) ≤ 20 + r.dist * spawnRadius := by nlinarith
      have hd2 : 20 + r.dist * spawnRadius < 20 + spawnRadius := by nlinarith
      have ht := htrig (r.angle * G.pi * 2)
      have hsq : (G.cos (r.angle * G.pi * 2) * (20 + r.dist * spawnRadius)) ^ 2 +
          (G.sin (r.angle * G.pi * 2) * (20 + r.dist * spawnRadius)) ^ 2 =
          (20 + r.dist * spawnRadius) ^ 2 := by
        have hx : (G.cos (r.angle * G.pi * 2) * (20 + r.dist * spawnRadius)) ^ 2 +
            (G.sin (r.angle * G.pi * 2) * (20 + r.dist * spawnRadius)) ^ 2 =
            (G.cos (r.angle * G.pi * 2) ^ 2 + G.sin (r.angle * G.pi * 2) ^ 2) *
              (20 + r.dist * spawnRadius) ^ 2 := by ring
        rw [hx, ht, one_mul]
      refine ⟨?_, ?_, rfl, hb1, hb2⟩
      · dsimp only
        rw [hsq]
        nlinarith
      · dsimp only
        rw [hsq]
        nlinarith
    · exact ih (fun r' hr' => hl r' (List.mem_cons_of_mem _ hr')) p hp

/-- C9 (amended).  Assuming the `Math.random` contract (draws in `[0, 1)`)
and the trigonometric identity for the external `cos`/`sin`, every non-null
position returned by the spawn-position search lies in the annulus around
the world center with inner radius 20 and outer radius `20 + spawnRadius`
(not `spawnRadius` as claimed — see the counterexample), stated via squared
distances; its `y` is the terrain height at its `(x, z)` and lies strictly
inside the land band `(-1, 15)`.  The search inspects exactly 20 attempts by
construction, and when it returns null, `spawnRandomCreature` creates no
creature (the collection is unchanged). -/
theorem c9_spawn_position (G : Geom) (terrain : ℚ → ℚ → ℚ) (spawnRadius : ℚ)
    (rnd : ℕ → SpawnRand)
    (htrig : ∀ a, G.cos a ^ 2 + G.sin a ^ 2 = 1)
    (hrnd : ∀ i, 0 ≤ (rnd i).dist ∧ (rnd i).dist < 1)
    (hR : 0 < spawnRadius) :
    (∀ p, findSpawnPosition G terrain spawnRadius rnd = some p →
        20 ^ 2 ≤ p.x ^ 2 + p.z ^ 2 ∧ p.x ^ 2 + p.z ^ 2 < (20 + spawnRadius) ^ 2 ∧
        p.y = terrain p.x p.z ∧ -1 < p.y ∧ p.y < 15) ∧
    (findSpawnPosition G terrain spawnRadius rnd = none →
      ∀ (speciesL : List Species) (rSel idv rot : ℚ) (cs : List Creature),
        spawnRandomCreature G terrain spawnRadius speciesL rSel rnd idv rot cs = cs) := by
  constructor
  · intro p hp
    refine findSpawnAux_spec G terrain spawnRadius htrig hR
      ((List.range 20).map rnd) ?_ p hp
    intro r hr
    obtain ⟨i, _, hi⟩ := List.mem_map.mp hr
    exact hi ▸ hrnd i
  · intro hnone speciesL rSel idv rot cs
    cases hsel : selectSpecies speciesL rSel <;>
      simp [spawnRandomCreature, hsel, hnone]

/-- C9 counterexample: with `cos = 1`, `sin = 0` (satisfying the circle
identity), flat valid terrain and a distance draw of 0.9, the first attempt
returns the position `(92, 0, 0)` — at distance 92 from the world center,
outside the claimed outer radius `spawnRadius = 80` (the source samples
`20 + random() * spawnRadius`, so the true outer radius is
`20 + spawnRadius = 100`). -/
theorem c9_counterexample :
    findSpawnPosition exGeom exTerrain 80 (fun _ => ⟨0, 9/10⟩) =
      some ⟨92, 0, 0⟩ ∧
    (∀ a, exGeom.cos a ^ 2 + exGeom.sin a ^ 2 = 1) ∧
    (92 : ℚ) ^ 2 + 0 ^ 2 > 80 ^ 2 := by
  refine ⟨?_, by intro a; norm_num [exGeom], by norm_num⟩
  have hrange20 : List.range 20 = [0, 1, 2, 3, 4, 5, 6, 7, 8, 9, 10, 11, 12,
      13, 14, 15, 16, 17, 18, 19] := by rfl
  rw [findSpawnPosition, hrange20]
  norm_num [findSpawnAux, exGeom, exTerrain]

/-- Witness for C9: with the same external instances and a distance draw of
0.5 the search returns `(60, 0, 0)`, which the theorem places inside the
amended annulus. -/
theorem c9_witness :
    findSpawnPosition exGeom exTerrain 80 (fun _ => ⟨0, 1/2⟩) =
      some ⟨60, 0, 0⟩ ∧
    (20 ^ 2 ≤ (60 : ℚ) ^ 2 + 0 ^ 2 ∧ (60 : ℚ) ^ 2 + 0 ^ 2 < (20 + 80) ^ 2 ∧
      (0 : ℚ) = exTerrain 60 0 ∧ -1 < (0 : ℚ) ∧ (0 : ℚ) < 15) := by
  have hp : findSpawnPosition exGeom exTerrain 80 (fun _ => ⟨0, 1/2⟩) =
      some ⟨60, 0, 0⟩ := by
    have hrange20 : List.range 20 = [0, 1, 2, 3, 4, 5, 6, 7, 8, 9, 10, 11, 12,
        13, 14, 15, 16, 17, 18, 19] := by rfl
    rw [findSpawnPosition, hrange20]
    norm_num [findSpawnAux, exGeom, exTerrain]
  exact ⟨hp,
    (c9_spawn_position exGeom exTerrain 80 (fun _ => ⟨0, 1/2⟩)
      (by intro a; norm_num [exGeom])
      (by intro i; norm_num)
      (by norm_num)).1 ⟨60, 0, 0⟩ hp⟩

theorem closestNodeAux_spec (dist : Vec3 → Vec3 → ℚ) (p : Vec3) (m : ℚ) :
    ∀ (l : List ResourceNode) (best : Option ResourceNode) (bd : ℚ),
      ((best = none ∧ bd = m) ∨
        (∃ rb, best = some rb ∧ rb.canGather = true ∧ dist p rb.position = bd ∧
          bd < m)) →
      ∀ r, closestNodeAux dist p l best bd = some r →
        r.canGather = true ∧ dist p r.position < m ∧ dist p r.position ≤ bd ∧
        (∀ n ∈ l, n.canGather = true → dist p r.position ≤ dist p n.position) := by
  intro l
  induction l with
  | nil =>
    intro best bd hb r hr
    simp only [closestNodeAux] at hr
    rcases hb with ⟨hn, hm⟩ | ⟨rb, hs, hg, hd, hlt⟩
    · rw [hn] at hr; cases hr
    · rw [hs] at hr
      cases hr
      exact ⟨hg, hd ▸ hlt, le_of_eq hd, by simp⟩
  | cons n rest ih =>
    intro best bd hb r hr
    simp only [closestNodeAux] at hr
    split_ifs at hr with h1 h2
    · have hng : n.canGather = false := by
        revert h1; cases n.canGather <;> simp
      obtain ⟨hg, hm, hbd, hrest⟩ := ih best bd hb r hr
      refine ⟨hg, hm, hbd, ?_⟩
      intro n' hn' hgn'
      rcases List.mem_cons.mp hn' with h | h
      · subst h; rw [hng] at hgn'; cases hgn'
      · exact hrest n' h hgn'
    · have hng : n.canGather = true := by
        revert h1; cases n.canGather <;> simp
      have hbm : bd ≤ m := by
        rcases hb with ⟨_, hm⟩ | ⟨rb, _, _, _, hlt⟩
        · exact le_of_eq hm
        · exact le_of_lt hlt
      obtain ⟨hg, hm, hbd, hrest⟩ := ih (some n) (dist p n.position)
        (Or.inr ⟨n, rfl, hng, rfl, lt_of_lt_of_le h2 hbm⟩) r hr
      refine ⟨hg, hm, le_of_lt (lt_of_le_of_lt hbd h2), ?_⟩
      intro n' hn' hgn'
      rcases List.mem_cons.mp hn' with h | h
      · subst h; exact hbd
      · exact hrest n' h hgn'
    · have hng : n.canGather = true := by
        revert h1; cases n.canGather <;> simp
      obtain ⟨hg, hm, hbd, hrest⟩ := ih best bd hb r hr
      refine ⟨hg, hm, hbd, ?_⟩
      intro n' hn' hgn'
      rcases List.mem_cons.mp hn' with h | h
      · subst h
        exact le_trans hbd (not_lt.mp h2)
      · exact hrest n' h hgn'

/-- C10 (confirmed).  `getClosestNode(position, maxDistance)` returns
either null or a gatherable node whose distance to `position` is strictly
below `maxDistance` and minimal among all gatherable nodes in the
collection; consequently a non-gatherable node is never returned (even when
nearest), and a node at distance exactly `maxDistance` is never returned. -/
theorem c10_closest_node (dist : Vec3 → Vec3 → ℚ) (nodes : List ResourceNode)
    (position : Vec3) (maxDistance : ℚ) :
    ∀ r, getClosestNode dist nodes position maxDistance = some r →
      r.canGather = true ∧ dist position r.position < maxDistance ∧
      ∀ n ∈ nodes, n.canGather = true →
        dist position r.position ≤ dist position n.position := by
  intro r hr
  obtain ⟨hg, hm, _, hall⟩ := closestNodeAux_spec dist position maxDistance
    nodes none maxDistance (Or.inl ⟨rfl, rfl⟩) r hr
  exact ⟨hg, hm, hall⟩

/-- Witness for C10: with a depleted tree at distance 3 and a gatherable rock
at distance 4 (max distance 5), the rock is returned: gatherable, within
range, and of minimal distance among gatherable nodes. -/
theorem c10_witness :
    getClosestNode exGeom.dist
        [{ createResourceNode "tree" ⟨3, 0, 0⟩ with canGather := false },
         createResourceNode "rock" ⟨4, 0, 0⟩] ⟨0, 0, 0⟩ 5 =
      some (createResourceNode "rock" ⟨4, 0, 0⟩) ∧
    ((createResourceNode "rock" ⟨4, 0, 0⟩).canGather = true ∧
      exGeom.dist ⟨0, 0, 0⟩ (createResourceNode "rock" ⟨4, 0, 0⟩).position < 5 ∧
      ∀ n ∈ [{ createResourceNode "tree" ⟨3, 0, 0⟩ with canGather := false },
         createResourceNode "rock" ⟨4, 0, 0⟩], n.canGather = true →
        exGeom.dist ⟨0, 0, 0⟩ (createResourceNode "rock" ⟨4, 0, 0⟩).position ≤
          exGeom.dist ⟨0, 0, 0⟩ n.position) := by
  have hp : getClosestNode exGeom.dist
      [{ createResourceNode "tree" ⟨3, 0, 0⟩ with canGather := false },
       createResourceNode "rock" ⟨4, 0, 0⟩] ⟨0, 0, 0⟩ 5 =
      some (createResourceNode "rock" ⟨4, 0, 0⟩) := by
    norm_num [getClosestNode, closestNodeAux, exGeom, createResourceNode]
  exact ⟨hp, c10_closest_node exGeom.dist _ ⟨0, 0, 0⟩ 5
    (createResourceNode "rock" ⟨4, 0, 0⟩) hp⟩

end Survival3D
